import Mathlib

set_option maxRecDepth 8192

/-!
Shallow embedding of `smeterd/meter.py`: the telegram framer
(`SmartMeter.read_one_packet`) and the field extractor (`P1Packet`).

Strings are modelled as Lean `String`s; where the Python code applies
regular expressions in `re.MULTILINE` mode over the joined text, we model
the search as "first line (in order) fully matching the pattern", which is
equivalent for these patterns because none of their atoms can match a
newline (the one exception, `[^)]` in the two equipment-id rules, is
modelled as not crossing a line boundary; no claim concerns those fields).
Python `float` values are modelled as exact rationals: every number the
patterns can capture is a finite decimal, and the claims compare them to
decimal literals.  Python `int` results of the digit-only captures are
modelled as `Nat`.  `\d` is modelled as the ASCII digits `0`-`9`.
-/

/-- Remove the literal `p` from the front of `s`, if present. -/
def stripLit? : List Char → List Char → Option (List Char)
  | [], s => some s
  | _ :: _, [] => none
  | p :: ps, c :: cs => if p = c then stripLit? ps cs else none

/-- `line.startswith(p)` from Python, on the underlying character lists. -/
def lineStarts (l p : String) : Bool := (stripLit? p.data l.data).isSome

/-- `line.endswith(p)` from Python, on the underlying character lists. -/
def lineEnds (l p : String) : Bool := (stripLit? p.data.reverse l.data.reverse).isSome

def isDigitCh (c : Char) : Bool := '0' ≤ c && c ≤ '9'

/-- Python `int` on a non-empty all-digit capture. -/
def digitsToNat (cs : List Char) : Nat := cs.foldl (fun a c => 10 * a + (c.toNat - '0'.toNat)) 0

/-- Python `float` on a capture of the form `digits.digits`, as an exact rational. -/
def decimalToRat (cs : List Char) : ℚ :=
  let ip := cs.takeWhile isDigitCh
  match cs.dropWhile isDigitCh with
  | '.' :: frac => (digitsToNat ip : ℚ) + (digitsToNat frac : ℚ) / (10 : ℚ) ^ frac.length
  | _ => (digitsToNat ip : ℚ)

/-- Split a character stream at `\n`, as Python's `re.MULTILINE` line structure
(equivalently `str.split('\n')`).  Always returns at least one line. -/
def splitLines : List Char → List (List Char)
  | [] => [[]]
  | c :: rest =>
    match splitLines rest with
    | [] => [[]]
    | l :: ls => if c = '\n' then [] :: l :: ls else (c :: l) :: ls

/-- The lines of the raw telegram text scanned by the extractor's patterns. -/
def p1Lines (raw : String) : List (List Char) := splitLines raw.data

/-! ## The line patterns of `P1Packet.__init__`

Each Python regular expression `^...$` (in MULTILINE mode) becomes a
function from one line to the optional text of its capture group. -/

/-- `^(/.*)$` — the header rule: a line starting with `/`, capturing the line. -/
def matchHeader (l : List Char) : Option (List Char) :=
  match l with
  | '/' :: _ => some l
  | _ => none

/-- Capture `([0-9]+)` followed by exactly `suffix` up to the end of the line. -/
def digitsThen (suffix : List Char) (r : List Char) : Option (List Char) :=
  let ds := r.takeWhile isDigitCh
  if ds.isEmpty then none
  else if r.dropWhile isDigitCh = suffix then some ds else none

/-- Capture `([0-9]+\.[0-9]+)` followed by exactly `suffix` to the end of the line. -/
def decimalThen (suffix : List Char) (r : List Char) : Option (List Char) :=
  let d1 := r.takeWhile isDigitCh
  match r.dropWhile isDigitCh with
  | '.' :: r2 =>
    let d2 := r2.takeWhile isDigitCh
    if d1.isEmpty || d2.isEmpty then none
    else if r2.dropWhile isDigitCh = suffix then some (d1 ++ '.' :: d2) else none
  | _ => none

/-- Capture `([^)]+)` followed by `)` ending the line (the equipment-id body). -/
def parenBody (r : List Char) : Option (List Char) :=
  let body := r.takeWhile (fun c => c ≠ ')')
  if body.isEmpty then none
  else if r.dropWhile (fun c => c ≠ ')') = [')'] then some body else none

/-- Capture a single digit `(\d)` followed by `)` ending the line. -/
def singleDigit (r : List Char) : Option (List Char) :=
  match r with
  | [d, ')'] => if isDigitCh d then some [d] else none
  | _ => none

/-- `^0-0:96\.1\.1\(([^)]+)\)$` -/
def matchKwhEid (l : List Char) : Option (List Char) :=
  (stripLit? "0-0:96.1.1(".data l).bind parenBody

/-- `^0-0:96\.14\.0\(([0-9]+)\)$` -/
def matchTariff (l : List Char) : Option (List Char) :=
  (stripLit? "0-0:96.14.0(".data l).bind (digitsThen ")".data)

/-- `^0-0:96\.3\.10\((\d)\)$` -/
def matchSwitch (l : List Char) : Option (List Char) :=
  (stripLit? "0-0:96.3.10(".data l).bind singleDigit

/-- `^0-0:17\.0\.0\(([0-9]{4}\.[0-9]{2})\*kW\)$` -/
def matchTreshold (l : List Char) : Option (List Char) :=
  match stripLit? "0-0:17.0.0(".data l with
  | some (a :: b :: c :: d :: '.' :: e :: f :: rest) =>
    if [a, b, c, d, e, f].all isDigitCh && rest = "*kW)".data
    then some [a, b, c, d, '.', e, f] else none
  | _ => none

/-- `^1-0:1\.8\.1\(([0-9]+\.[0-9]+)\*kWh\)$` -/
def matchLowConsumed (l : List Char) : Option (List Char) :=
  (stripLit? "1-0:1.8.1(".data l).bind (decimalThen "*kWh)".data)

/-- `^1-0:2\.8\.1\(([0-9]+\.[0-9]+)\*kWh\)$` -/
def matchLowProduced (l : List Char) : Option (List Char) :=
  (stripLit? "1-0:2.8.1(".data l).bind (decimalThen "*kWh)".data)

/-- `^1-0:1\.8\.2\(([0-9]+\.[0-9]+)\*kWh\)$` -/
def matchHighConsumed (l : List Char) : Option (List Char) :=
  (stripLit? "1-0:1.8.2(".data l).bind (decimalThen "*kWh)".data)

/-- `^1-0:2\.8\.2\(([0-9]+\.[0-9]+)\*kWh\)$` -/
def matchHighProduced (l : List Char) : Option (List Char) :=
  (stripLit? "1-0:2.8.2(".data l).bind (decimalThen "*kWh)".data)

/-- `^1-0:1\.7\.0\(([0-9]+\.[0-9]+)\*kW\)$` -/
def matchCurrentConsumed (l : List Char) : Option (List Char) :=
  (stripLit? "1-0:1.7.0(".data l).bind (decimalThen "*kW)".data)

/-- `^1-0:2\.7\.0\(([0-9]+\.[0-9]+)\*kW\)$` -/
def matchCurrentProduced (l : List Char) : Option (List Char) :=
  (stripLit? "1-0:2.7.0(".data l).bind (decimalThen "*kW)".data)

/-- `^0-1:96\.1\.0\(([^)]+)\)$` -/
def matchGasEid (l : List Char) : Option (List Char) :=
  (stripLit? "0-1:96.1.0(".data l).bind parenBody

/-- `^0-1:24\.1\.0\((\d)+\)$` — a repeated single-character group: Python's
`group(1)` is the text of the *last* repetition, i.e. the last digit. -/
def matchDeviceType (l : List Char) : Option (List Char) :=
  match stripLit? "0-1:24.1.0(".data l with
  | some r =>
    let ds := r.takeWhile isDigitCh
    if ds.isEmpty then none
    else if r.dropWhile isDigitCh = ")".data then some [ds.getLastD '0'] else none
  | none => none

/-- `\(([0-9]{5}\.[0-9]{3})(?:\*m3)?\)$` — the mandatory tail of the gas-total rule. -/
def gasCore (r : List Char) : Option (List Char) :=
  match r with
  | '(' :: a :: b :: c :: d :: e :: '.' :: f :: g :: h :: rest =>
    if [a, b, c, d, e, f, g, h].all isDigitCh && (rest = ")".data || rest = "*m3)".data)
    then some [a, b, c, d, e, '.', f, g, h] else none
  | _ => none

/-- `\(\d+S\)` — the optional serial group inside the gas-total address. -/
def stripGasSerial? (r : List Char) : Option (List Char) :=
  match r with
  | '(' :: rest =>
    let ds := rest.takeWhile isDigitCh
    if ds.isEmpty then none
    else match rest.dropWhile isDigitCh with
         | 'S' :: ')' :: r2 => some r2
         | _ => none
  | _ => none

/-- `^(?:0-1:24\.2\.1(?:\(\d+S\))?)?\(([0-9]{5}\.[0-9]{3})(?:\*m3)?\)$` —
the whole address part is optional; backtracking order of the Python engine
is reflected by trying the longer alternatives first. -/
def matchGasTotal (l : List Char) : Option (List Char) :=
  match stripLit? "0-1:24.2.1".data l with
  | some r =>
    match stripGasSerial? r with
    | some r2 => (gasCore r2).orElse (fun _ => gasCore r)
    | none => gasCore r
  | none => gasCore l

/-- `^0-1:24\.4\.0\((\d)\)$` -/
def matchValve (l : List Char) : Option (List Char) :=
  (stripLit? "0-1:24.4.0(".data l).bind singleDigit

/-- `^0-0:96\.13\.1\((\d+)\)$` — kept as a string by the code (`get`, not `get_int`). -/
def matchMsgCode (l : List Char) : Option (List Char) :=
  (stripLit? "0-0:96.13.1(".data l).bind (digitsThen ")".data)

/-- `^0-0:96\.13\.0\((.+)\)$` — greedy `.+`, so the capture runs to the final `)`. -/
def matchMsgText (l : List Char) : Option (List Char) :=
  match stripLit? "0-0:96.13.0(".data l with
  | some r =>
    match r.reverse with
    | ')' :: revBody => if revBody.isEmpty then none else some revBody.reverse
    | _ => none
  | none => none

/-! ## The extraction helpers of `P1Packet`

`P1Packet.get` is `re.search` over the raw text: the first line (in order)
whose pattern matches, with a default when none does.  `get_int` and
`get_float` additionally apply Python truthiness (`if not result`): an
absent or empty capture yields the declared default. -/

/-- `P1Packet.get`: capture of the first matching line, if any. -/
def firstCapture (m : List Char → Option (List Char)) (ls : List (List Char)) :
    Option (List Char) :=
  ls.findSome? m

/-- `P1Packet.get(regex, default)` with a string default. -/
def getStr (m : List Char → Option (List Char)) (ls : List (List Char))
    (d : List Char) : List Char :=
  (firstCapture m ls).getD d

/-- `P1Packet.get_int(regex)` (default `None`). -/
def getInt (m : List Char → Option (List Char)) (ls : List (List Char)) : Option Nat :=
  match firstCapture m ls with
  | none => none
  | some c => if c.isEmpty then none else some (digitsToNat c)

/-- `P1Packet.get_float(regex)` (default `None`). -/
def getFloatOpt (m : List Char → Option (List Char)) (ls : List (List Char)) : Option ℚ :=
  match firstCapture m ls with
  | none => none
  | some c => if c.isEmpty then none else some (decimalToRat c)

/-- `P1Packet.get_float(regex, d)` with a numeric default. -/
def getFloatD (m : List Char → Option (List Char)) (ls : List (List Char)) (d : ℚ) : ℚ :=
  match firstCapture m ls with
  | none => d
  | some c => if c.isEmpty then d else decimalToRat c

/-! ## The `P1Packet` record (the `keys` dictionary of `__init__`) -/

structure KwhSide where
  consumed : Option ℚ
  produced : Option ℚ
deriving Repr, DecidableEq

structure KwhData where
  eid : Option String
  tariff : Option Nat
  switch : Option Nat
  treshold : Option ℚ
  low : KwhSide
  high : KwhSide
  current_consumed : Option ℚ
  current_produced : Option ℚ
deriving Repr, DecidableEq

structure GasData where
  eid : Option String
  device_type : Option Nat
  total : ℚ
  valve : Option Nat
deriving Repr, DecidableEq

structure MsgData where
  code : Option String
  text : Option String
deriving Repr, DecidableEq

structure P1Packet where
  /-- `self._raw`; `__str__` returns exactly this. -/
  raw : String
  header : String
  kwh : KwhData
  gas : GasData
  msg : MsgData
deriving Repr, DecidableEq

/-- `P1Packet.__init__` on a raw string (`type(data) != list`). -/
def P1Packet.ofString (data : String) : P1Packet :=
  let ls := p1Lines data
  { raw := data
    header := String.mk (getStr matchHeader ls [])
    kwh :=
      { eid := (firstCapture matchKwhEid ls).map String.mk
        tariff := getInt matchTariff ls
        switch := getInt matchSwitch ls
        treshold := getFloatOpt matchTreshold ls
        low :=
          { consumed := getFloatOpt matchLowConsumed ls
            produced := getFloatOpt matchLowProduced ls }
        high :=
          { consumed := getFloatOpt matchHighConsumed ls
            produced := getFloatOpt matchHighProduced ls }
        current_consumed := getFloatOpt matchCurrentConsumed ls
        current_produced := getFloatOpt matchCurrentProduced ls }
    gas :=
      { eid := (firstCapture matchGasEid ls).map String.mk
        device_type := getInt matchDeviceType ls
        total := getFloatD matchGasTotal ls 0
        valve := getInt matchValve ls }
    msg :=
      { code := (firstCapture matchMsgCode ls).map String.mk
        text := (firstCapture matchMsgText ls).map String.mk } }

/-- `P1Packet.__init__` on a list of lines: `self._raw = '\n'.join(data)`. -/
def P1Packet.ofList (lines : List String) : P1Packet :=
  P1Packet.ofString (String.intercalate "\n" lines)

/-! ## The telegram framer (`SmartMeter.read_one_packet`)

The loop body is modelled as a step function on the loop state; the whole
read is a fold of the step over the sequence of (already stripped) lines
delivered by the serial port. -/

structure ReaderState where
  /-- the `lines` buffer of the current candidate telegram -/
  lines : List String
  /-- `lines_read`: every line ever received in this call, discarded or not -/
  linesRead : Nat
  /-- `max_lines`: the dialect's expected maximum, initially 35 -/
  maxLines : Nat
deriving Repr, DecidableEq

/-- Outcome of one loop iteration. -/
inductive StepResult where
  /-- loop continues (`complete_packet` still false) -/
  | more (s : ReaderState)
  /-- `complete_packet = True` and no error raised: the loop exits -/
  | done (s : ReaderState)
  /-- the stuck-in-a-loop `SmartMeterError` was raised -/
  | stuck (s : ReaderState)
deriving Repr, DecidableEq

def StepResult.state : StepResult → ReaderState
  | .more s => s
  | .done s => s
  | .stuck s => s

/-- The `max_lines` update: inside the `/ISk5` branch, `1003` sets 13 and
`1004` sets 19 (sequential `if`s; any other ending leaves it unchanged). -/
def newMax (s : ReaderState) (line : String) : Nat :=
  if lineStarts line "/ISk5" then
    if lineEnds line "1004" then 19
    else if lineEnds line "1003" then 13
    else s.maxLines
  else s.maxLines

/-- The buffer update: a `/ISk5` header resets the buffer to just itself,
any other line is appended. -/
def newBuf (s : ReaderState) (line : String) : List String :=
  if lineStarts line "/ISk5" then [line] else s.lines ++ [line]

/-- One iteration of the `while not complete_packet` loop, after a line was
read successfully.  The runaway check runs after the completion check and a
raise wins over the completion flag set in the same iteration. -/
def readPacketStep (s : ReaderState) (line : String) : StepResult :=
  let t : ReaderState := ⟨newBuf s line, s.linesRead + 1, newMax s line⟩
  if t.lines.length > t.maxLines * 2 + 2 then .stuck t
  else if lineStarts line "!" && t.lines.length > t.maxLines then .done t
  else .more t

/-- Outcome of a whole `read_one_packet` call on a finite stream of lines. -/
inductive RunOut where
  /-- the line source was exhausted with the loop still running -/
  | ranOut (s : ReaderState)
  /-- the loop exited: the call returns `P1Packet('\n'.join(lines))` -/
  | packet (s : ReaderState)
  /-- the stuck-in-a-loop `SmartMeterError` -/
  | looped (s : ReaderState)
deriving Repr, DecidableEq

def RunOut.state : RunOut → ReaderState
  | .ranOut s => s
  | .packet s => s
  | .looped s => s

def RunOut.isPacket : RunOut → Bool
  | .packet _ => true
  | _ => false

def RunOut.isLooped : RunOut → Bool
  | .looped _ => true
  | _ => false

def runRead : ReaderState → List String → RunOut
  | s, [] => .ranOut s
  | s, l :: rest =>
    match readPacketStep s l with
    | .more t => runRead t rest
    | .done t => .packet t
    | .stuck t => .looped t

/-- The initial loop state of `read_one_packet`. -/
def initReader : ReaderState := ⟨[], 0, 35⟩

/-- `SmartMeter.read_one_packet`, with the serial port abstracted to the
finite list of (stripped) lines it delivers. -/
def read_one_packet (input : List String) : RunOut :=
  runRead initReader input

/-! ## Concrete inputs used by the claim theorems below -/

/-- Input on which C2 as stated fails: dialect max 13, so a `!` line arriving
as the 29th buffered line holds strictly more lines (29) than the maximum,
yet the telegram is not completed — the runaway guard raises instead. -/
def spec_c2_input : List String := "/ISk5A1003" :: (List.replicate 27 "x" ++ ["!"])

/-- Input on which the clause of C3 that a completing read never fails with
this error breaks: dialect max 19, footer arrives as the 41st buffered line. -/
def spec_c3_input : List String := "/ISk5B1004" :: (List.replicate 39 "y" ++ ["!end"])

/-- Input on which C10 as stated fails: two bare gas-total lines; the claim
asserts the populated value for each of them, but only the first wins. -/
def spec_c10_bad : String := "(11111.111)\n(22222.222)"

/-- A telegram realizing the C1 scenario exactly (each scenario line is the
first line matching its rule). -/
def spec_c1_data : String :=
  "/ISk5\\2ME382-1004\n1-0:1.8.1(0608.400*kWh)\n1-0:2.8.2(0490.342*kWh)\n" ++
  "0-0:96.14.0(0001)\n0-0:96.3.10(1)\n0-0:17.0.0(0999.00*kW)\n" ++
  "1-0:1.7.0(0001.51*kW)\n1-0:2.7.0(0000.00*kW)\n0-1:24.2.1(00947.680)\n" ++
  "0-1:24.4.0(1)\n!"

/-- The same telegram with one extra line `1-0:1.8.1(0111.111*kWh)` inserted
before the scenario's low-consumed line: every condition of C1 as stated
still holds, but the parse picks the earlier line. -/
def spec_c1_bad : String :=
  "/ISk5\\2ME382-1004\n1-0:1.8.1(0111.111*kWh)\n1-0:1.8.1(0608.400*kWh)\n" ++
  "1-0:2.8.2(0490.342*kWh)\n0-0:96.14.0(0001)\n0-0:96.3.10(1)\n" ++
  "0-0:17.0.0(0999.00*kW)\n1-0:1.7.0(0001.51*kW)\n1-0:2.7.0(0000.00*kW)\n" ++
  "0-1:24.2.1(00947.680)\n0-1:24.4.0(1)\n!"

/-! ## Helper lemmas -/

theorem findSome?_eq_none_of_all {α β : Type _} (f : α → Option β) :
    ∀ l : List α, (∀ x ∈ l, f x = none) → l.findSome? f = none
  | [], _ => rfl
  | a :: as, h => by
    have ha := h a (List.mem_cons_self a as)
    have ht := findSome?_eq_none_of_all f as (fun x hx => h x (List.mem_cons_of_mem a hx))
    simp [List.findSome?_cons, ha, ht]

theorem findSome?_of_find? {α β : Type _} (f : α → Option β) :
    ∀ (l : List α) (a : α), l.find? (fun x => (f x).isSome) = some a → l.findSome? f = f a
  | [], a, h => by simp at h
  | x :: xs, a, h => by
    cases hfx : f x with
    | some b =>
      rw [List.find?_cons_of_pos _ (by simp [hfx])] at h
      cases h
      simp [List.findSome?_cons, hfx]
    | none =>
      rw [List.find?_cons_of_neg _ (by simp [hfx])] at h
      rw [List.findSome?_cons, hfx]
      exact findSome?_of_find? f xs a h

/-- Two literals with different head characters cannot both lead a line. -/
theorem stripLit?_head_ne {c₁ c₂ : Char} (rest₁ rest₂ : List Char) (hne : c₁ ≠ c₂)
    (l : List Char) (h : (stripLit? (c₁ :: rest₁) l).isSome = true) :
    (stripLit? (c₂ :: rest₂) l).isSome = false := by
  cases l with
  | nil => simp [stripLit?] at h
  | cons c cs =>
    by_cases h1 : c₁ = c
    · subst h1
      have h2 : ¬(c₂ = c₁) := fun he => hne he.symm
      simp [stripLit?, h2]
    · simp [stripLit?, h1] at h

/-- A line beginning with `!` does not begin with `/ISk5`. -/
theorem bang_not_header (line : String) (h : lineStarts line "!" = true) :
    lineStarts line "/ISk5" = false := by
  unfold lineStarts at h ⊢
  have e1 : ("!" : String).data = '!' :: [] := rfl
  have e2 : ("/ISk5" : String).data = '/' :: "ISk5".data := rfl
  rw [e1] at h
  rw [e2]
  exact stripLit?_head_ne _ _ (by decide) _ h

/-- A line ending in `1003` does not end in `1004`. -/
theorem ends1003_not_1004 (line : String) (h : lineEnds line "1003" = true) :
    lineEnds line "1004" = false := by
  unfold lineEnds at h ⊢
  have e1 : ("1003" : String).data.reverse = '3' :: "001".data := rfl
  have e2 : ("1004" : String).data.reverse = '4' :: "001".data := rfl
  rw [e1] at h
  rw [e2]
  exact stripLit?_head_ne _ _ (by decide) _ h

/-- The state carried by the step result, whatever the outcome. -/
theorem step_state (s : ReaderState) (line : String) :
    (readPacketStep s line).state = ⟨newBuf s line, s.linesRead + 1, newMax s line⟩ := by
  unfold readPacketStep
  dsimp only
  split
  · rfl
  · split <;> rfl

/-- When the stuck-in-a-loop error fires, the buffer has just exceeded the
bound for the first time: it holds exactly `2 × max + 3` lines. -/
theorem step_stuck_bound (s : ReaderState) (line : String) (t : ReaderState)
    (hs : s.lines.length ≤ s.maxLines * 2 + 2)
    (h : readPacketStep s line = .stuck t) :
    t.lines.length = t.maxLines * 2 + 3 := by
  unfold readPacketStep at h
  dsimp only at h
  split at h
  · next hc =>
    cases h
    unfold newBuf newMax at hc ⊢
    by_cases hh : lineStarts line "/ISk5"
    · simp [hh] at hc
    · simp [hh] at hc ⊢
      omega
  · split at h <;> cases h

/-- A step that does not raise keeps the buffer within the runaway bound. -/
theorem step_live_bound (s : ReaderState) (line : String) (t : ReaderState)
    (h : readPacketStep s line = .more t ∨ readPacketStep s line = .done t) :
    t.lines.length ≤ t.maxLines * 2 + 2 := by
  unfold readPacketStep at h
  dsimp only at h
  rcases h with h | h <;>
  · split at h
    · cases h
    · next hc =>
      split at h
      all_goals cases h
      all_goals exact Nat.le_of_not_lt hc

/-- Invariant of the read loop: states that keep running stay within the
runaway bound, and the error state exceeds it by exactly one line. -/
theorem runRead_bound (input : List String) (s : ReaderState)
    (hs : s.lines.length ≤ s.maxLines * 2 + 2) :
    ((runRead s input).isLooped = true →
      (runRead s input).state.lines.length = (runRead s input).state.maxLines * 2 + 3) ∧
    ((runRead s input).isLooped = false →
      (runRead s input).state.lines.length ≤ (runRead s input).state.maxLines * 2 + 2) := by
  induction input generalizing s with
  | nil =>
    refine ⟨fun h => by simp [runRead, RunOut.isLooped] at h, fun _ => ?_⟩
    simpa [runRead, RunOut.state] using hs
  | cons l rest ih =>
    simp only [runRead]
    cases hst : readPacketStep s l with
    | more t => exact ih t (step_live_bound s l t (Or.inl hst))
    | done t =>
      refine ⟨fun h => by simp [RunOut.isLooped] at h, fun _ => ?_⟩
      simpa [RunOut.state] using step_live_bound s l t (Or.inr hst)
    | stuck t =>
      refine ⟨fun _ => ?_, fun h => by simp [RunOut.isLooped] at h⟩
      simpa [RunOut.state] using step_stuck_bound s l t hs hst

/-! ## Per-rule extraction lemmas: captured value or declared default -/

theorem getStr_spec (m : List Char → Option (List Char)) (ls : List (List Char)) :
    (∃ c, firstCapture m ls = some c ∧ String.mk (getStr m ls []) = String.mk c) ∨
      String.mk (getStr m ls []) = "" := by
  cases h : firstCapture m ls with
  | some c => exact Or.inl ⟨c, rfl, by simp [getStr, h]⟩
  | none => exact Or.inr (by simp [getStr, h])

theorem mapMk_spec (m : List Char → Option (List Char)) (ls : List (List Char)) :
    (∃ c, firstCapture m ls = some c ∧
        (firstCapture m ls).map String.mk = some (String.mk c)) ∨
      (firstCapture m ls).map String.mk = none := by
  cases h : firstCapture m ls with
  | some c => exact Or.inl ⟨c, rfl, by simp⟩
  | none => exact Or.inr (by simp)

theorem getInt_spec (m : List Char → Option (List Char)) (ls : List (List Char)) :
    (∃ c, firstCapture m ls = some c ∧ c.isEmpty = false ∧
        getInt m ls = some (digitsToNat c)) ∨
      getInt m ls = none := by
  cases h : firstCapture m ls with
  | some c =>
    cases he : c.isEmpty with
    | true => exact Or.inr (by simp [getInt, h, he])
    | false => exact Or.inl ⟨c, rfl, he, by simp [getInt, h, he]⟩
  | none => exact Or.inr (by simp [getInt, h])

theorem getFloatOpt_spec (m : List Char → Option (List Char)) (ls : List (List Char)) :
    (∃ c, firstCapture m ls = some c ∧ c.isEmpty = false ∧
        getFloatOpt m ls = some (decimalToRat c)) ∨
      getFloatOpt m ls = none := by
  cases h : firstCapture m ls with
  | some c =>
    cases he : c.isEmpty with
    | true => exact Or.inr (by simp [getFloatOpt, h, he])
    | false => exact Or.inl ⟨c, rfl, he, by simp [getFloatOpt, h, he]⟩
  | none => exact Or.inr (by simp [getFloatOpt, h])

theorem getFloatD_spec (m : List Char → Option (List Char)) (ls : List (List Char)) (d : ℚ) :
    (∃ c, firstCapture m ls = some c ∧ c.isEmpty = false ∧
        getFloatD m ls d = decimalToRat c) ∨
      getFloatD m ls d = d := by
  cases h : firstCapture m ls with
  | some c =>
    cases he : c.isEmpty with
    | true => exact Or.inr (by simp [getFloatD, h, he])
    | false => exact Or.inl ⟨c, rfl, he, by simp [getFloatD, h, he]⟩
  | none => exact Or.inr (by simp [getFloatD, h])

theorem getFloatOpt_of_capture (m : List Char → Option (List Char)) (ls : List (List Char))
    (c : List Char) (h : firstCapture m ls = some c) (he : c.isEmpty = false) :
    getFloatOpt m ls = some (decimalToRat c) := by
  simp [getFloatOpt, h, he]

theorem getInt_of_capture (m : List Char → Option (List Char)) (ls : List (List Char))
    (c : List Char) (h : firstCapture m ls = some c) (he : c.isEmpty = false) :
    getInt m ls = some (digitsToNat c) := by
  simp [getInt, h, he]

theorem getFloatD_of_capture (m : List Char → Option (List Char)) (ls : List (List Char))
    (d : ℚ) (c : List Char) (h : firstCapture m ls = some c) (he : c.isEmpty = false) :
    getFloatD m ls d = decimalToRat c := by
  simp [getFloatD, h, he]

/-- Evaluating `decimalToRat` once the capture is split at its dot.  (Needed
because `Rat` literal arithmetic does not reduce definitionally.) -/
theorem decimalToRat_of_split (cs ip frac : List Char)
    (hip : cs.takeWhile isDigitCh = ip)
    (hfrac : cs.dropWhile isDigitCh = '.' :: frac) :
    decimalToRat cs =
      (digitsToNat ip : ℚ) + (digitsToNat frac : ℚ) / (10 : ℚ) ^ frac.length := by
  simp only [decimalToRat, hip, hfrac]

/-! ## Claims about the telegram framer -/

/-- C2, amended.  During `read_one_packet`, a line beginning with `!`
completes the telegram iff, counting the line itself, the buffer then holds
strictly more lines than the dialect's expected maximum *and* at most
`2 × max + 2` lines — beyond that the runaway guard raises instead of
completing.  A `!`-line that leaves the buffer at or below the expected
maximum never ends the telegram: assembly continues. -/
theorem spec_c2_amended (s : ReaderState) (line : String)
    (h : lineStarts line "!" = true) :
    (readPacketStep s line = .done ⟨s.lines ++ [line], s.linesRead + 1, s.maxLines⟩ ↔
      (s.lines.length + 1 > s.maxLines ∧ s.lines.length + 1 ≤ s.maxLines * 2 + 2)) ∧
    (s.lines.length + 1 ≤ s.maxLines →
      readPacketStep s line = .more ⟨s.lines ++ [line], s.linesRead + 1, s.maxLines⟩) := by
  have hh := bang_not_header line h
  simp only [readPacketStep, newBuf, newMax, hh, h, Bool.false_eq_true, if_false,
    Bool.true_and, List.length_append, List.length_cons, List.length_nil, gt_iff_lt,
    decide_eq_true_eq]
  constructor
  · constructor
    · intro hd
      split at hd
      · cases hd
      · split at hd
        · next h1 h2 => exact ⟨by omega, by omega⟩
        · cases hd
    · rintro ⟨h1, h2⟩
      rw [if_neg (by omega), if_pos (by omega)]
  · intro hle
    rw [if_neg (by omega), if_neg (by omega)]

theorem spec_c2_witness :
    readPacketStep ⟨["a", "b"], 2, 1⟩ "!" = .done ⟨["a", "b", "!"], 3, 1⟩ ∧
    readPacketStep ⟨["a"], 1, 5⟩ "!" = .more ⟨["a", "!"], 2, 5⟩ :=
  ⟨((spec_c2_amended ⟨["a", "b"], 2, 1⟩ "!" (by decide)).1).mpr (by constructor <;> decide),
   (spec_c2_amended ⟨["a"], 1, 5⟩ "!" (by decide)).2 (by decide)⟩

/-- C2, counterexample to the claim as stated: a `!`-prefixed line seen
while the buffer holds more lines than the expected maximum, after which the
read does *not* complete (it raises the stuck-in-a-loop error). -/
theorem spec_c2_counterexample :
    lineStarts "!" "!" = true ∧
    (read_one_packet spec_c2_input).isPacket = false ∧
    (read_one_packet spec_c2_input).isLooped = true ∧
    (read_one_packet spec_c2_input).state.lines.length >
      (read_one_packet spec_c2_input).state.maxLines := by decide

/-- C3, amended.  If `read_one_packet` raises the stuck-in-a-loop error,
the buffer at that moment holds exactly `2 × max + 3` lines — the first time
the `2 × max + 2` bound is exceeded; any outcome that does not raise keeps
the buffer within the bound.  (The claim's clause that a completing read
never raises this error is false: a valid footer arriving exactly when the
buffer reaches `2 × max + 3` lines is lost to the error, see the
counterexample.) -/
theorem spec_c3_amended (input : List String) :
    ((read_one_packet input).isLooped = true →
      (read_one_packet input).state.lines.length =
        (read_one_packet input).state.maxLines * 2 + 3) ∧
    ((read_one_packet input).isLooped = false →
      (read_one_packet input).state.lines.length ≤
        (read_one_packet input).state.maxLines * 2 + 2) :=
  runRead_bound input initReader (by decide)

theorem spec_c3_witness :
    (read_one_packet ("/ISk5w1003" :: List.replicate 28 "x")).state.lines.length =
      (read_one_packet ("/ISk5w1003" :: List.replicate 28 "x")).state.maxLines * 2 + 3 :=
  (spec_c3_amended ("/ISk5w1003" :: List.replicate 28 "x")).1 (by decide)

/-- C3, counterexample to the claim as stated: a valid footer line
arrives while the buffer exceeds the expected maximum (41 > 19), so the read
completes by the claim's definition, yet the call fails with the framing
runaway error. -/
theorem spec_c3_counterexample :
    lineStarts "!end" "!" = true ∧
    (read_one_packet spec_c3_input).state.lines.length >
      (read_one_packet spec_c3_input).state.maxLines ∧
    (read_one_packet spec_c3_input).isPacket = false ∧
    (read_one_packet spec_c3_input).isLooped = true := by decide

/-- C4, amended.  A `/ISk5` header ending in `1003` sets the expected
maximum to 13 and one ending in `1004` sets it to 19; a header with any
other ending *leaves the expected maximum unchanged* (so 35 only if no
earlier header of this call had already changed it). -/
theorem spec_c4_amended (s : ReaderState) (line : String)
    (h : lineStarts line "/ISk5" = true) :
    (lineEnds line "1003" = true → (readPacketStep s line).state.maxLines = 13) ∧
    (lineEnds line "1004" = true → (readPacketStep s line).state.maxLines = 19) ∧
    (lineEnds line "1003" = false → lineEnds line "1004" = false →
      (readPacketStep s line).state.maxLines = s.maxLines) := by
  refine ⟨fun h3 => ?_, fun h4 => ?_, fun h3 h4 => ?_⟩ <;>
    rw [step_state] <;> simp only [newMax, h]
  · rw [ends1003_not_1004 line h3]
    simp [h3]
  · simp [h4]
  · simp [h3, h4]

theorem spec_c4_witness :
    (readPacketStep initReader "/ISk5A1003").state.maxLines = 13 ∧
    (readPacketStep initReader "/ISk5A1004").state.maxLines = 19 ∧
    (readPacketStep ⟨["a"], 1, 13⟩ "/ISk5A9999").state.maxLines = 13 :=
  ⟨(spec_c4_amended initReader "/ISk5A1003" (by decide)).1 (by decide),
   (spec_c4_amended initReader "/ISk5A1004" (by decide)).2.1 (by decide),
   (spec_c4_amended ⟨["a"], 1, 13⟩ "/ISk5A9999" (by decide)).2.2 (by decide) (by decide)⟩

/-- C4, counterexample to the claim as stated: after a header ending in
`1003` (max 13), a header with an unrecognized ending arrives; the expected
maximum stays 13 instead of returning to the default 35. -/
theorem spec_c4_counterexample :
    lineStarts "/ISk5B9999" "/ISk5" = true ∧
    lineEnds "/ISk5B9999" "1003" = false ∧
    lineEnds "/ISk5B9999" "1004" = false ∧
    (runRead initReader ["/ISk5A1003", "/ISk5B9999"]).state.maxLines = 13 ∧
    (runRead initReader ["/ISk5A1003", "/ISk5B9999"]).state.maxLines ≠ 35 := by decide

/-- C8, confirmed.  Whenever a line beginning with `/ISk5` is received,
the buffer afterwards contains exactly that one line, whatever it held
before: a new header always wins. -/
theorem spec_c8 (s : ReaderState) (line : String)
    (h : lineStarts line "/ISk5" = true) :
    (readPacketStep s line).state.lines = [line] := by
  rw [step_state]
  simp [newBuf, h]

theorem spec_c8_witness :
    (readPacketStep ⟨["a", "b", "c"], 7, 19⟩ "/ISk5X1004").state.lines = ["/ISk5X1004"] :=
  spec_c8 ⟨["a", "b", "c"], 7, 19⟩ "/ISk5X1004" (by decide)

/-! ## Claims about the field extractor -/

/-- C5, confirmed.  Parsing an ordered sequence of lines and parsing the
single string obtained by joining it with `\n` yield identical records, and
in both cases the retained raw text (what `__str__` returns) is exactly the
input joined by `\n`. -/
theorem spec_c5 (lines : List String) :
    P1Packet.ofList lines = P1Packet.ofString (String.intercalate "\n" lines) ∧
    (P1Packet.ofList lines).raw = String.intercalate "\n" lines ∧
    (P1Packet.ofString (String.intercalate "\n" lines)).raw =
      String.intercalate "\n" lines :=
  ⟨rfl, rfl, rfl⟩

/-- C9, confirmed.  The extractor is a pure function of the raw text:
`P1Packet.__init__` reads nothing but its argument (the class attribute
`_raw` is shadowed by the instance attribute before any rule runs), so in
the embedding parsing the same text twice yields definitionally the same
record in every field. -/
theorem spec_c9 (data : String) :
    P1Packet.ofString data = P1Packet.ofString data ∧
    (P1Packet.ofString data).kwh = (P1Packet.ofString data).kwh ∧
    (P1Packet.ofString data).gas = (P1Packet.ofString data).gas ∧
    (P1Packet.ofString data).msg = (P1Packet.ofString data).msg :=
  ⟨rfl, rfl, rfl, rfl⟩

/-- C6, confirmed.  A telegram with no line matching the high-tariff
produced pattern yields the distinct "no value" state (not 0) for
`kwh.high.produced`, while one with no line matching the gas-total pattern
yields exactly the number 0 for `gas.total`. -/
theorem spec_c6 (data : String) :
    ((∀ l ∈ p1Lines data, matchHighProduced l = none) →
      (P1Packet.ofString data).kwh.high.produced = none ∧
      (P1Packet.ofString data).kwh.high.produced ≠ some 0) ∧
    ((∀ l ∈ p1Lines data, matchGasTotal l = none) →
      (P1Packet.ofString data).gas.total = 0) := by
  constructor
  · intro h
    have hn : List.findSome? matchHighProduced (p1Lines data) = none :=
      findSome?_eq_none_of_all _ _ h
    have : (P1Packet.ofString data).kwh.high.produced = none := by
      show getFloatOpt matchHighProduced (p1Lines data) = none
      simp [getFloatOpt, firstCapture, hn]
    exact ⟨this, by simp [this]⟩
  · intro h
    have hn : List.findSome? matchGasTotal (p1Lines data) = none :=
      findSome?_eq_none_of_all _ _ h
    show getFloatD matchGasTotal (p1Lines data) 0 = 0
    simp [getFloatD, firstCapture, hn]

theorem spec_c6_witness :
    ((P1Packet.ofString "hello").kwh.high.produced = none ∧
      (P1Packet.ofString "hello").kwh.high.produced ≠ some 0) ∧
    (P1Packet.ofString "no gas here").gas.total = 0 :=
  ⟨(spec_c6 "hello").1 (by decide), (spec_c6 "no gas here").2 (by decide)⟩

/-- C7, confirmed.  For every input text the extractor returns a record
(the embedding is a total function) in which every field is either the value
extracted by its pattern from the first matching line or the declared
default of the rule: `""` for the header, the number 0 for `gas.total`, and
"no value" for every other field (also used when a capture is empty, per
Python truthiness in `get_int`/`get_float`). -/
theorem spec_c7 (data : String) :
    ((∃ c, firstCapture matchHeader (p1Lines data) = some c ∧
        (P1Packet.ofString data).header = String.mk c) ∨
      (P1Packet.ofString data).header = "") ∧
    ((∃ c, firstCapture matchKwhEid (p1Lines data) = some c ∧
        (P1Packet.ofString data).kwh.eid = some (String.mk c)) ∨
      (P1Packet.ofString data).kwh.eid = none) ∧
    ((∃ c, firstCapture matchTariff (p1Lines data) = some c ∧ c.isEmpty = false ∧
        (P1Packet.ofString data).kwh.tariff = some (digitsToNat c)) ∨
      (P1Packet.ofString data).kwh.tariff = none) ∧
    ((∃ c, firstCapture matchSwitch (p1Lines data) = some c ∧ c.isEmpty = false ∧
        (P1Packet.ofString data).kwh.switch = some (digitsToNat c)) ∨
      (P1Packet.ofString data).kwh.switch = none) ∧
    ((∃ c, firstCapture matchTreshold (p1Lines data) = some c ∧ c.isEmpty = false ∧
        (P1Packet.ofString data).kwh.treshold = some (decimalToRat c)) ∨
      (P1Packet.ofString data).kwh.treshold = none) ∧
    ((∃ c, firstCapture matchLowConsumed (p1Lines data) = some c ∧ c.isEmpty = false ∧
        (P1Packet.ofString data).kwh.low.consumed = some (decimalToRat c)) ∨
      (P1Packet.ofString data).kwh.low.consumed = none) ∧
    ((∃ c, firstCapture matchLowProduced (p1Lines data) = some c ∧ c.isEmpty = false ∧
        (P1Packet.ofString data).kwh.low.produced = some (decimalToRat c)) ∨
      (P1Packet.ofString data).kwh.low.produced = none) ∧
    ((∃ c, firstCapture matchHighConsumed (p1Lines data) = some c ∧ c.isEmpty = false ∧
        (P1Packet.ofString data).kwh.high.consumed = some (decimalToRat c)) ∨
      (P1Packet.ofString data).kwh.high.consumed = none) ∧
    ((∃ c, firstCapture matchHighProduced (p1Lines data) = some c ∧ c.isEmpty = false ∧
        (P1Packet.ofString data).kwh.high.produced = some (decimalToRat c)) ∨
      (P1Packet.ofString data).kwh.high.produced = none) ∧
    ((∃ c, firstCapture matchCurrentConsumed (p1Lines data) = some c ∧ c.isEmpty = false ∧
        (P1Packet.ofString data).kwh.current_consumed = some (decimalToRat c)) ∨
      (P1Packet.ofString data).kwh.current_consumed = none) ∧
    ((∃ c, firstCapture matchCurrentProduced (p1Lines data) = some c ∧ c.isEmpty = false ∧
        (P1Packet.ofString data).kwh.current_produced = some (decimalToRat c)) ∨
      (P1Packet.ofString data).kwh.current_produced = none) ∧
    ((∃ c, firstCapture matchGasEid (p1Lines data) = some c ∧
        (P1Packet.ofString data).gas.eid = some (String.mk c)) ∨
      (P1Packet.ofString data).gas.eid = none) ∧
    ((∃ c, firstCapture matchDeviceType (p1Lines data) = some c ∧ c.isEmpty = false ∧
        (P1Packet.ofString data).gas.device_type = some (digitsToNat c)) ∨
      (P1Packet.ofString data).gas.device_type = none) ∧
    ((∃ c, firstCapture matchGasTotal (p1Lines data) = some c ∧ c.isEmpty = false ∧
        (P1Packet.ofString data).gas.total = decimalToRat c) ∨
      (P1Packet.ofString data).gas.total = 0) ∧
    ((∃ c, firstCapture matchValve (p1Lines data) = some c ∧ c.isEmpty = false ∧
        (P1Packet.ofString data).gas.valve = some (digitsToNat c)) ∨
      (P1Packet.ofString data).gas.valve = none) ∧
    ((∃ c, firstCapture matchMsgCode (p1Lines data) = some c ∧
        (P1Packet.ofString data).msg.code = some (String.mk c)) ∨
      (P1Packet.ofString data).msg.code = none) ∧
    ((∃ c, firstCapture matchMsgText (p1Lines data) = some c ∧
        (P1Packet.ofString data).msg.text = some (String.mk c)) ∨
      (P1Packet.ofString data).msg.text = none) :=
  ⟨getStr_spec matchHeader (p1Lines data),
   mapMk_spec matchKwhEid (p1Lines data),
   getInt_spec matchTariff (p1Lines data),
   getInt_spec matchSwitch (p1Lines data),
   getFloatOpt_spec matchTreshold (p1Lines data),
   getFloatOpt_spec matchLowConsumed (p1Lines data),
   getFloatOpt_spec matchLowProduced (p1Lines data),
   getFloatOpt_spec matchHighConsumed (p1Lines data),
   getFloatOpt_spec matchHighProduced (p1Lines data),
   getFloatOpt_spec matchCurrentConsumed (p1Lines data),
   getFloatOpt_spec matchCurrentProduced (p1Lines data),
   mapMk_spec matchGasEid (p1Lines data),
   getInt_spec matchDeviceType (p1Lines data),
   getFloatD_spec matchGasTotal (p1Lines data) 0,
   getInt_spec matchValve (p1Lines data),
   mapMk_spec matchMsgCode (p1Lines data),
   mapMk_spec matchMsgText (p1Lines data)⟩

/-- C10, amended.  If the *first* line matching the gas-total rule is a
bare parenthesized `ddddd.ddd` number (optionally with `*m3`), with no
`0-1:24.2.1` address prefix, the rule matches it — the entire address prefix
is optional — and `gas.total` is populated with that number. -/
theorem spec_c10_amended (data : String) (d1 d2 d3 d4 d5 e1 e2 e3 : Char) (tail : List Char)
    (hd : ([d1, d2, d3, d4, d5, e1, e2, e3]).all isDigitCh = true)
    (htl : tail = [')'] ∨ tail = "*m3)".data)
    (hfind : (p1Lines data).find? (fun l => (matchGasTotal l).isSome) =
      some ('(' :: d1 :: d2 :: d3 :: d4 :: d5 :: '.' :: e1 :: e2 :: e3 :: tail)) :
    matchGasTotal ('(' :: d1 :: d2 :: d3 :: d4 :: d5 :: '.' :: e1 :: e2 :: e3 :: tail) =
      some [d1, d2, d3, d4, d5, '.', e1, e2, e3] ∧
    (P1Packet.ofString data).gas.total =
      decimalToRat [d1, d2, d3, d4, d5, '.', e1, e2, e3] := by
  have hstrip : stripLit? "0-1:24.2.1".data
      ('(' :: d1 :: d2 :: d3 :: d4 :: d5 :: '.' :: e1 :: e2 :: e3 :: tail) = none := rfl
  have h2 : matchGasTotal ('(' :: d1 :: d2 :: d3 :: d4 :: d5 :: '.' :: e1 :: e2 :: e3 :: tail) =
      some [d1, d2, d3, d4, d5, '.', e1, e2, e3] := by
    rcases htl with h | h <;> subst h <;> simp [matchGasTotal, hstrip, gasCore, hd]
  refine ⟨h2, ?_⟩
  have h1 := findSome?_of_find? matchGasTotal (p1Lines data) _ hfind
  exact getFloatD_of_capture matchGasTotal (p1Lines data) 0 _ (h1.trans h2) rfl

theorem spec_c10_witness :
    matchGasTotal "(12345.678)".data = some "12345.678".data ∧
    (P1Packet.ofString "(12345.678)").gas.total = decimalToRat "12345.678".data :=
  ⟨(spec_c10_amended "(12345.678)" '1' '2' '3' '4' '5' '6' '7' '8' [')']
      (by decide) (Or.inl rfl) (by decide)).1,
   (spec_c10_amended "(12345.678)" '1' '2' '3' '4' '5' '6' '7' '8' [')']
      (by decide) (Or.inl rfl) (by decide)).2⟩

/-- C10, counterexample to the claim as stated: the telegram contains the
bare line `(22222.222)` — which the gas-total rule does match, and no line
carries the `0-1:24.2.1` prefix — yet `gas.total` is not 22222.222: the
earlier matching line `(11111.111)` was used instead. -/
theorem spec_c10_counterexample :
    "(22222.222)".data ∈ p1Lines spec_c10_bad ∧
    "(22222.222)".data = '(' :: ("22222.222".data ++ [')']) ∧
    matchGasTotal "(22222.222)".data = some "22222.222".data ∧
    (∀ l ∈ p1Lines spec_c10_bad, stripLit? "0-1:24.2.1".data l = none) ∧
    (P1Packet.ofString spec_c10_bad).gas.total = (11111.111 : ℚ) ∧
    (P1Packet.ofString spec_c10_bad).gas.total ≠ (22222.222 : ℚ) := by
  have hf : (p1Lines spec_c10_bad).find? (fun l => (matchGasTotal l).isSome) =
      some "(11111.111)".data := by decide
  have h1 := findSome?_of_find? matchGasTotal (p1Lines spec_c10_bad) _ hf
  have h2 : matchGasTotal "(11111.111)".data = some "11111.111".data := by decide
  have h3 := getFloatD_of_capture matchGasTotal (p1Lines spec_c10_bad) 0 _ (h1.trans h2) rfl
  have h4 : decimalToRat "11111.111".data = (11111.111 : ℚ) := by
    rw [decimalToRat_of_split _ ['1', '1', '1', '1', '1'] ['1', '1', '1']
        (by decide) (by decide)]
    rw [show digitsToNat ['1', '1', '1', '1', '1'] = 11111 from rfl,
        show digitsToNat ['1', '1', '1'] = 111 from rfl]
    norm_num
  have hv : (P1Packet.ofString spec_c10_bad).gas.total = (11111.111 : ℚ) := by
    rw [h4] at h3; exact h3
  refine ⟨by decide, by decide, by decide, by decide, hv, ?_⟩
  rw [hv]
  norm_num

/-- C1, amended.  The end-to-end scenario holds whenever the scenario's
lines are the *first* lines matching their respective rules (the
counterexample shows the claim fails if the telegram merely *contains* them,
because an earlier matching line wins the search): the parse then yields
`kwh.low.consumed = 608.400`, `kwh.tariff = 1`, `kwh.treshold = 999.0`,
`gas.total = 947.680` and no message code. -/
theorem spec_c1_amended (data : String)
    (_hhdr : firstCapture matchHeader (p1Lines data) = some "/ISk5\\2ME382-1004".data)
    (hlc : (p1Lines data).find? (fun l => (matchLowConsumed l).isSome) =
      some "1-0:1.8.1(0608.400*kWh)".data)
    (_hhp : "1-0:2.8.2(0490.342*kWh)".data ∈ p1Lines data)
    (htar : ∃ l c, (p1Lines data).find? (fun x => (matchTariff x).isSome) = some l ∧
      matchTariff l = some c ∧ c.isEmpty = false ∧ digitsToNat c = 1)
    (_hsw : "0-0:96.3.10(1)".data ∈ p1Lines data)
    (hth : (p1Lines data).find? (fun l => (matchTreshold l).isSome) =
      some "0-0:17.0.0(0999.00*kW)".data)
    (_hcc : "1-0:1.7.0(0001.51*kW)".data ∈ p1Lines data)
    (_hcp : "1-0:2.7.0(0000.00*kW)".data ∈ p1Lines data)
    (hgt : ∃ l c, (p1Lines data).find? (fun x => (matchGasTotal x).isSome) = some l ∧
      matchGasTotal l = some c ∧ c.isEmpty = false ∧ decimalToRat c = (947.680 : ℚ))
    (_hgv : "0-1:24.4.0(1)".data ∈ p1Lines data)
    (hmsg : ∀ l ∈ p1Lines data, matchMsgCode l = none ∧ matchMsgText l = none) :
    (P1Packet.ofString data).kwh.low.consumed = some (608.400 : ℚ) ∧
    (P1Packet.ofString data).kwh.tariff = some 1 ∧
    (P1Packet.ofString data).kwh.treshold = some (999.0 : ℚ) ∧
    (P1Packet.ofString data).gas.total = (947.680 : ℚ) ∧
    (P1Packet.ofString data).msg.code = none := by
  refine ⟨?_, ?_, ?_, ?_, ?_⟩
  · have h1 := findSome?_of_find? matchLowConsumed (p1Lines data) _ hlc
    have h2 : matchLowConsumed "1-0:1.8.1(0608.400*kWh)".data = some "0608.400".data := by
      decide
    have h3 := getFloatOpt_of_capture matchLowConsumed (p1Lines data) _ (h1.trans h2) rfl
    have h4 : decimalToRat "0608.400".data = (608.400 : ℚ) := by
      rw [decimalToRat_of_split _ ['0', '6', '0', '8'] ['4', '0', '0']
          (by decide) (by decide)]
      rw [show digitsToNat ['0', '6', '0', '8'] = 608 from rfl,
          show digitsToNat ['4', '0', '0'] = 400 from rfl]
      norm_num
    rw [h4] at h3
    exact h3
  · obtain ⟨l, c, hf, hm, hne, hval⟩ := htar
    have h1 := findSome?_of_find? matchTariff (p1Lines data) _ hf
    have h3 := getInt_of_capture matchTariff (p1Lines data) _ (h1.trans hm) hne
    rw [hval] at h3
    exact h3
  · have h1 := findSome?_of_find? matchTreshold (p1Lines data) _ hth
    have h2 : matchTreshold "0-0:17.0.0(0999.00*kW)".data = some "0999.00".data := by decide
    have h3 := getFloatOpt_of_capture matchTreshold (p1Lines data) _ (h1.trans h2) rfl
    have h4 : decimalToRat "0999.00".data = (999.0 : ℚ) := by
      rw [decimalToRat_of_split _ ['0', '9', '9', '9'] ['0', '0'] (by decide) (by decide)]
      rw [show digitsToNat ['0', '9', '9', '9'] = 999 from rfl,
          show digitsToNat ['0', '0'] = 0 from rfl]
      norm_num
    rw [h4] at h3
    exact h3
  · obtain ⟨l, c, hf, hm, hne, hval⟩ := hgt
    have h1 := findSome?_of_find? matchGasTotal (p1Lines data) _ hf
    have h3 := getFloatD_of_capture matchGasTotal (p1Lines data) 0 _ (h1.trans hm) hne
    rw [hval] at h3
    exact h3
  · have hn : List.findSome? matchMsgCode (p1Lines data) = none :=
      findSome?_eq_none_of_all _ _ (fun l hl => (hmsg l hl).1)
    show (firstCapture matchMsgCode (p1Lines data)).map String.mk = none
    simp [firstCapture, hn]

theorem spec_c1_witness :
    (P1Packet.ofString spec_c1_data).kwh.low.consumed = some (608.400 : ℚ) ∧
    (P1Packet.ofString spec_c1_data).kwh.tariff = some 1 ∧
    (P1Packet.ofString spec_c1_data).kwh.treshold = some (999.0 : ℚ) ∧
    (P1Packet.ofString spec_c1_data).gas.total = (947.680 : ℚ) ∧
    (P1Packet.ofString spec_c1_data).msg.code = none :=
  spec_c1_amended spec_c1_data (by decide) (by decide) (by decide)
    ⟨"0-0:96.14.0(0001)".data, "0001".data, by decide, by decide, by decide, by decide⟩
    (by decide) (by decide) (by decide) (by decide)
    ⟨"0-1:24.2.1(00947.680)".data, "00947.680".data, by decide, by decide, by decide, by
      rw [decimalToRat_of_split _ ['0', '0', '9', '4', '7'] ['6', '8', '0']
          (by decide) (by decide)]
      rw [show digitsToNat ['0', '0', '9', '4', '7'] = 947 from rfl,
          show digitsToNat ['6', '8', '0'] = 680 from rfl]
      norm_num⟩
    (by decide) (by decide)

/-- C1, counterexample to the claim as stated: a telegram whose header
line is `/ISk5\2ME382-1004`, which *contains* all the scenario lines (tariff
1, switch 1, the threshold line, the current-power lines, the gas lines) and
no message lines, and yet `kwh.low.consumed` is 111.111, not 608.400. -/
theorem spec_c1_counterexample :
    (P1Packet.ofString spec_c1_bad).header = "/ISk5\\2ME382-1004" ∧
    "1-0:1.8.1(0608.400*kWh)".data ∈ p1Lines spec_c1_bad ∧
    "1-0:2.8.2(0490.342*kWh)".data ∈ p1Lines spec_c1_bad ∧
    "0-0:96.14.0(0001)".data ∈ p1Lines spec_c1_bad ∧
    "0-0:96.3.10(1)".data ∈ p1Lines spec_c1_bad ∧
    "0-0:17.0.0(0999.00*kW)".data ∈ p1Lines spec_c1_bad ∧
    "1-0:1.7.0(0001.51*kW)".data ∈ p1Lines spec_c1_bad ∧
    "1-0:2.7.0(0000.00*kW)".data ∈ p1Lines spec_c1_bad ∧
    "0-1:24.2.1(00947.680)".data ∈ p1Lines spec_c1_bad ∧
    "0-1:24.4.0(1)".data ∈ p1Lines spec_c1_bad ∧
    (∀ l ∈ p1Lines spec_c1_bad, matchMsgCode l = none ∧ matchMsgText l = none) ∧
    (P1Packet.ofString spec_c1_bad).kwh.low.consumed = some (111.111 : ℚ) ∧
    (P1Packet.ofString spec_c1_bad).kwh.low.consumed ≠ some (608.400 : ℚ) := by
  have hf : (p1Lines spec_c1_bad).find? (fun l => (matchLowConsumed l).isSome) =
      some "1-0:1.8.1(0111.111*kWh)".data := by decide
  have h1 := findSome?_of_find? matchLowConsumed (p1Lines spec_c1_bad) _ hf
  have h2 : matchLowConsumed "1-0:1.8.1(0111.111*kWh)".data = some "0111.111".data := by
    decide
  have h3 := getFloatOpt_of_capture matchLowConsumed (p1Lines spec_c1_bad) _ (h1.trans h2) rfl
  have h4 : decimalToRat "0111.111".data = (111.111 : ℚ) := by
    rw [decimalToRat_of_split _ ['0', '1', '1', '1'] ['1', '1', '1'] (by decide) (by decide)]
    rw [show digitsToNat ['0', '1', '1', '1'] = 111 from rfl,
        show digitsToNat ['1', '1', '1'] = 111 from rfl]
    norm_num
  have hv : (P1Packet.ofString spec_c1_bad).kwh.low.consumed = some (111.111 : ℚ) := by
    rw [h4] at h3; exact h3
  refine ⟨by decide, by decide, by decide, by decide, by decide, by decide, by decide,
    by decide, by decide, by decide, by decide, hv, ?_⟩
  rw [hv]
  simp only [ne_eq, Option.some.injEq]
  norm_num
